import Mathlib

/-!
Verification development for the crypto market-data MCP server
(`src/server.py`).  The four tool handlers (`get_coin_list`, `get_price`,
`get_market_data`, `get_trending`), the price-request helper
(`coin_price_request`) and the prompt renderer (`get_prompt`) are embedded
shallowly.  The upstream HTTP collaborator (CoinGecko) is modelled as a
`Gateway` record of stubbed per-endpoint responses, and every handler is
instrumented to return, next to its result, the list of Gateway calls it
issued, so that claims about which upstream requests are (not) made are
statable.
-/

namespace CryptoServer

/-- One entry of the coin catalog returned by the `/coins/list` endpoint
(`{id, symbol, name}`). -/
structure Coin where
  id : String
  symbol : String
  name : String
deriving DecidableEq, Repr

/-- The two failure modes of an upstream HTTP fetch, mirroring the two
`except` clauses in the source: `httpx.RequestError` (transport-level
failure before a response) and `httpx.HTTPStatusError` (non-success HTTP
status raised by `raise_for_status`). -/
inductive FetchError where
  | requestError (msg : String)
  | httpStatusError (msg : String)
deriving DecidableEq, Repr

/-- A value occurring in an outbound query-parameter mapping.  The source
puts strings and ints into `params`; the `bool` constructor exists so that
"the sparkline value is never a native boolean" is expressible. -/
inductive QueryValue where
  | str (s : String)
  | int (n : Int)
  | bool (b : Bool)
deriving DecidableEq, Repr

/-- One upstream HTTP request, tagged by endpoint, recording the query
parameters where the source sends any. -/
inductive GatewayCall where
  | coinList
  | simplePrice (params : List (String × QueryValue))
  | markets (params : List (String × QueryValue))
  | trending
deriving DecidableEq, Repr

/-- The upstream endpoint of a Gateway call, forgetting the parameters. -/
inductive Endpoint where
  | coinList
  | simplePrice
  | markets
  | trending
deriving DecidableEq, Repr

def endpointOf : GatewayCall → Endpoint
  | .coinList => .coinList
  | .simplePrice _ => .simplePrice
  | .markets _ => .markets
  | .trending => .trending

/-- Stub of the upstream collaborator: what each endpoint would answer if
called during one invocation.  Successful bodies other than the coin list
are opaque JSON payloads, represented by a token, since the handlers pass
them through unmodified. -/
structure Gateway where
  coinListResp : Except FetchError (List Coin)
  simplePriceResp : Except FetchError String
  marketsResp : Except FetchError String
  trendingResp : Except FetchError String

/-- Result of a tool handler: either the upstream JSON body passed through
verbatim, or the sentinel one-key error dictionary the source returns. -/
inductive ToolResult where
  | json (body : String)
  | errDict (msg : String)
deriving DecidableEq, Repr

/-- Result of `get_coin_list`: the parsed catalog, or the sentinel error
dictionary. -/
inductive CoinListResult where
  | coins (cs : List Coin)
  | errDict (msg : String)
deriving DecidableEq, Repr

/-- Python truthiness of an optional string argument (`None` and the empty
string are falsy). -/
def pyTruthy : Option String → Bool
  | none => false
  | some s => !s.isEmpty

/-- `get_coin_list`: fetches `/coins/list`; on `RequestError` returns
`{"error": "Request error: ..."}`, on `HTTPStatusError` returns
`{"error": "HTTP error: ..."}`. -/
def get_coin_list (gw : Gateway) : CoinListResult × List GatewayCall :=
  match gw.coinListResp with
  | .ok cs => (.coins cs, [.coinList])
  | .error (.requestError e) => (.errDict ("Request error: " ++ e), [.coinList])
  | .error (.httpStatusError e) => (.errDict ("HTTP error: " ++ e), [.coinList])

/-- Python `s.split(",")` on the character level: cut at every comma,
keeping empty pieces, so the empty string splits to `[""]`. -/
def splitCommaAux : List Char → List Char → List String
  | [], acc => [⟨acc.reverse⟩]
  | c :: rest, acc =>
    if c = ',' then ⟨acc.reverse⟩ :: splitCommaAux rest []
    else splitCommaAux rest (c :: acc)

def splitComma (s : String) : List String :=
  splitCommaAux s.data []

/-- Python `str.lower()` on the character level (the source only lowers the
ASCII words True and False). -/
def strLower (s : String) : String :=
  ⟨s.data.map Char.toLower⟩

/-- The symbol-to-id mapping built by the dict comprehension
`{coin["symbol"]: coin["id"] for coin in coin_list}`: a later catalog entry
with the same symbol overwrites an earlier one, so lookup finds the LAST
entry carrying the symbol; matching is exact string equality. -/
def symbolToId (coin_list : List Coin) (symbol : String) : Option String :=
  (coin_list.reverse.find? (fun c => c.symbol == symbol)).map Coin.id

/-- The resolution loop of `coin_price_request`: walk the requested symbols
in order, keep the mapped id of each symbol present in the mapping, drop
the rest. -/
def resolveSymbols (symbols : List String) (coin_list : List Coin) : List String :=
  symbols.filterMap (symbolToId coin_list)

/-- The final HTTP GET of `coin_price_request` against `/simple/price`:
both `except` clauses print and return `None`. -/
def simplePriceFetch (gw : Gateway) (params : List (String × QueryValue))
    (calls : List GatewayCall) : Option ToolResult × List GatewayCall :=
  match gw.simplePriceResp with
  | .ok body => (some (.json body), calls ++ [.simplePrice params])
  | .error _ => (none, calls ++ [.simplePrice params])

/-- `coin_price_request(vs_currencies, ids, symbols)`: if `ids` is truthy it
is sent verbatim; otherwise, if `symbols` is truthy, the coin catalog is
fetched via `get_coin_list` (an error there yields `None`), symbols are
resolved, an empty resolution yields the sentinel
`{"error": "No valid symbols provided"}`, and otherwise the resolved ids are
comma-joined into the query. -/
def coin_price_request (gw : Gateway) (vs_currencies : String)
    (ids : Option String := none) (symbols : Option String := none) :
    Option ToolResult × List GatewayCall :=
  let params : List (String × QueryValue) := [("vs_currencies", .str vs_currencies)]
  if pyTruthy ids then
    simplePriceFetch gw (params ++ [("ids", .str (ids.getD ""))]) []
  else if pyTruthy symbols then
    match get_coin_list gw with
    | (.errDict _, calls) => (none, calls)
    | (.coins coin_list, calls) =>
      let resolved_ids := resolveSymbols (splitComma (symbols.getD "")) coin_list
      if resolved_ids.isEmpty then
        (some (.errDict "No valid symbols provided"), calls)
      else
        simplePriceFetch gw
          (params ++ [("ids", .str (String.intercalate "," resolved_ids))]) calls
  else
    simplePriceFetch gw params []

/-- `get_price`: validation guard `if not ids and not symbols`, then the
helper; a `None` from the helper becomes
`{"error": "Failed to fetch price data"}`. -/
def get_price (gw : Gateway) (vs_currencies : String := "usd")
    (ids : Option String := none) (symbols : Option String := none) :
    ToolResult × List GatewayCall :=
  if !pyTruthy ids && !pyTruthy symbols then
    (.errDict "Please provide at least one coin id or symbol", [])
  else
    match coin_price_request gw vs_currencies ids symbols with
    | (some data, calls) => (data, calls)
    | (none, calls) => (.errDict "Failed to fetch price data", calls)

/-- The query parameters `get_market_data` sends to `/coins/markets`:
`per_page`/`page` are native ints, `sparkline` is serialized by
`str(sparkline).lower()`, and `ids`/`category` are appended only when
truthy. -/
def market_params (vs_currency : String) (ids category : Option String)
    (order : String) (per_page page : Int) (sparkline : Bool) :
    List (String × QueryValue) :=
  let params : List (String × QueryValue) :=
    [("vs_currency", .str vs_currency), ("order", .str order),
     ("per_page", .int per_page), ("page", .int page),
     ("sparkline", .str (strLower (if sparkline then "True" else "False")))]
  let params := if pyTruthy ids then params ++ [("ids", .str (ids.getD ""))] else params
  if pyTruthy category then params ++ [("category", .str (category.getD ""))] else params

/-- `get_market_data`: builds the markets query and fetches it; the two
`except` clauses return the prefixed sentinel error dictionaries. -/
def get_market_data (gw : Gateway) (vs_currency : String := "usd")
    (ids : Option String := none) (category : Option String := none)
    (order : String := "market_cap_desc") (per_page : Int := 100)
    (page : Int := 1) (sparkline : Bool := false) :
    ToolResult × List GatewayCall :=
  let params := market_params vs_currency ids category order per_page page sparkline
  match gw.marketsResp with
  | .ok body => (.json body, [.markets params])
  | .error (.requestError e) => (.errDict ("Request error: " ++ e), [.markets params])
  | .error (.httpStatusError e) => (.errDict ("HTTP error: " ++ e), [.markets params])

/-- `get_trending`: fetches `/search/trending`; same error policy as
`get_market_data`. -/
def get_trending (gw : Gateway) : ToolResult × List GatewayCall :=
  match gw.trendingResp with
  | .ok body => (.json body, [.trending])
  | .error (.requestError e) => (.errDict ("Request error: " ++ e), [.trending])
  | .error (.httpStatusError e) => (.errDict ("HTTP error: " ++ e), [.trending])

/-- The two-coin stub catalog used by the spec's testable properties. -/
def demoCatalog : List Coin :=
  [⟨"bitcoin", "btc", "Bitcoin"⟩, ⟨"ethereum", "eth", "Ethereum"⟩]

/-- A concrete all-success stub Gateway for witnesses. -/
def stubGateway : Gateway :=
  { coinListResp := .ok demoCatalog
    simplePriceResp := .ok "price-body"
    marketsResp := .ok "markets-body"
    trendingResp := .ok "trending-body" }

/-! ## Prompt registry and renderer -/

/-- One declared argument of a registered prompt (`types.PromptArgument`). -/
structure PromptArgument where
  name : String
  description : String
  required : Bool
deriving DecidableEq, Repr

/-- One registered prompt (`types.Prompt`). -/
structure Prompt where
  name : String
  description : String
  arguments : List PromptArgument := []
deriving DecidableEq, Repr

/-- The `PROMPTS` table of the source, as an association list in source
order.  Description texts are reproduced without the quote characters of the
original literals. -/
def PROMPTS : List (String × Prompt) :=
  [("get_coin_list",
    { name := "get_coin_list"
      description := "Get a list of all coins available on CoinGecko" }),
   ("get_price",
    { name := "get_price"
      description := "Get the price of selected coins"
      arguments :=
        [⟨"vs_currencies", "Comma-separated list of currencies (e.g., usd,eur)", true⟩,
         ⟨"ids", "Comma-separated list of coin IDs (e.g., bitcoin,ethereum)", false⟩,
         ⟨"symbols", "Comma-separated list of coin symbols (e.g., btc,eth)", false⟩] }),
   ("get_market_data",
    { name := "get_market_data"
      description := "Get cryptocurrency market data"
      arguments :=
        [⟨"vs_currency", "The target currency (e.g., usd, eur)", true⟩,
         ⟨"ids", "Comma-separated list of coin IDs", false⟩,
         ⟨"category", "Filter by category", false⟩,
         ⟨"order", "Sort by field (market_cap_desc, volume_asc, etc.)", false⟩,
         ⟨"per_page", "Number of results per page", false⟩,
         ⟨"page", "Page number", false⟩,
         ⟨"sparkline", "Include sparkline data", false⟩] }),
   ("get_trending",
    { name := "get_trending"
      description := "Get trending coins in the last 24 hours" })]

/-- The names of a prompt's required arguments. -/
def promptRequiredArgs (p : Prompt) : List String :=
  (p.arguments.filter (fun a => a.required)).map PromptArgument.name

/-- The Python exceptions `get_prompt` can raise. -/
inductive PyExn where
  | valueError (msg : String)
  | attributeError (attr : String)
deriving DecidableEq, Repr

/-- One `types.PromptMessage` (role plus text content). -/
structure PromptMessage where
  role : String
  text : String
deriving DecidableEq, Repr

/-- `types.GetPromptResult`. -/
structure GetPromptResult where
  messages : List PromptMessage
deriving DecidableEq, Repr

/-- `dict.get` on the argument mapping: the value of the first binding of
the key, if any. -/
def dictGet (args : List (String × String)) (k : String) : Option String :=
  (args.find? (fun kv => kv.1 == k)).map Prod.snd

/-- A value a prompt-local variable can hold: the supplied argument string,
or a non-string default (`100`, `1`, `False`). -/
inductive PromptVal where
  | str (s : String)
  | int (n : Int)
  | bool (b : Bool)
deriving DecidableEq, Repr

/-- Python truthiness of a prompt-local value. -/
def PromptVal.truthy : PromptVal → Bool
  | .str s => !s.isEmpty
  | .int n => n != 0
  | .bool b => b

/-- How a prompt-local value prints inside an f-string. -/
def PromptVal.toText : PromptVal → String
  | .str s => s
  | .int n => toString n
  | .bool b => if b then "True" else "False"

/-- The recurring source pattern
`arguments.get(k) if arguments.get(k) else default`: the supplied string if
present and truthy, else the default. -/
def promptVal (args : List (String × String)) (k : String) (dflt : PromptVal) :
    PromptVal :=
  match dictGet args k with
  | some s => if s.isEmpty then dflt else .str s
  | none => dflt

/-- `get_prompt(name, arguments)`.  Exception messages are modelled up to
their text; the `AttributeError` arises in the source from calling `.get`
on `arguments` when it is `None` in the `get_price` branch, which has no
`None` guard (unlike the `get_market_data` branch). -/
def get_prompt (name : String) (arguments : Option (List (String × String))) :
    Except PyExn GetPromptResult :=
  if (PROMPTS.find? (fun kv => kv.1 == name)).isNone then
    .error (.valueError ("Prompt not found: " ++ name))
  else if name == "get_coin_list" then
    .ok ⟨[⟨"user", "Get a list of all coins available on CoinGecko"⟩]⟩
  else if name == "get_price" then
    match arguments with
    | none => .error (.attributeError "get")
    | some args =>
      let vs_currencies := promptVal args "vs_currencies" (.str "usd")
      let ids := promptVal args "ids" (.str "")
      let symbols := promptVal args "symbols" (.str "")
      let text := "Get the price of selected coins. vs_currencies: " ++ vs_currencies.toText
      let text := if ids.truthy then text ++ ", ids: " ++ ids.toText else text
      let text := if symbols.truthy then text ++ ", symbols: " ++ symbols.toText else text
      if !vs_currencies.truthy then
        .error (.valueError "vs_currencies argument is required.")
      else
        .ok ⟨[⟨"user", text⟩]⟩
  else if name == "get_market_data" then
    match arguments with
    | none => .error (.valueError "Arguments are required for this prompt.")
    | some args =>
      let vs_currency := promptVal args "vs_currency" (.str "usd")
      let ids := promptVal args "ids" (.str "")
      let category := promptVal args "category" (.str "")
      let order := promptVal args "order" (.str "market_cap_desc")
      let per_page := promptVal args "per_page" (.int 100)
      let page := promptVal args "page" (.int 1)
      let sparkline := promptVal args "sparkline" (.bool false)
      let text := "Get cryptocurrency market data. vs_currency: " ++ vs_currency.toText
      let text := if ids.truthy then text ++ ", ids: " ++ ids.toText else text
      let text := if category.truthy then text ++ ", category: " ++ category.toText else text
      let text := if order.truthy then text ++ ", order: " ++ order.toText else text
      let text := if per_page.truthy then text ++ ", per_page: " ++ per_page.toText else text
      let text := if page.truthy then text ++ ", page: " ++ page.toText else text
      let text := if sparkline.truthy then text ++ ", sparkline: " ++ sparkline.toText else text
      .ok ⟨[⟨"user", text⟩]⟩
  else if name == "get_trending" then
    .ok ⟨[⟨"user", "Get trending coins in the last 24 hours"⟩]⟩
  else
    .error (.valueError "Prompt implementation not found")

instance {α β : Type} [DecidableEq α] [DecidableEq β] :
    DecidableEq (Except α β) := fun
  | .ok x, .ok y => decidable_of_iff (x = y) (by simp)
  | .ok _, .error _ => .isFalse (by simp)
  | .error _, .ok _ => .isFalse (by simp)
  | .error x, .error y => decidable_of_iff (x = y) (by simp)

/-- Whether `pat` occurs as a substring of `text`: some suffix of `text`
starts with `pat`. -/
def textMentions (text pat : String) : Bool :=
  (List.range (text.data.length + 1)).any
    (fun i => pat.data.isPrefixOf (text.data.drop i))

/-- `arguments.get(k) if arguments.get(k) else dflt` specialised to string
defaults: the value the rendered text shows for a string-valued parameter. -/
def pyGetOr (args : List (String × String)) (k dflt : String) : String :=
  match dictGet args k with
  | some s => if s.isEmpty then dflt else s
  | none => dflt

/-- Stub Gateway whose price endpoint fails at the transport level. -/
def gwPriceReqErr : Gateway :=
  { stubGateway with simplePriceResp := .error (.requestError "boom") }

/-- Stub Gateway whose price endpoint fails with an HTTP error status. -/
def gwPriceStatErr : Gateway :=
  { stubGateway with simplePriceResp := .error (.httpStatusError "500 Server Error") }

/-! ## Claims -/

/-- C1: a `get_price` call in which neither `ids` nor `symbols` is supplied
(absent or empty, hence falsy) returns the validation-error payload and
issues no Gateway call at all. -/
theorem getPrice_missing_args_validation (gw : Gateway) (vs : String)
    (ids symbols : Option String)
    (hi : pyTruthy ids = false) (hs : pyTruthy symbols = false) :
    get_price gw vs ids symbols =
      (ToolResult.errDict "Please provide at least one coin id or symbol", []) := by
  unfold get_price
  simp [hi, hs]

/-- Witness for C1 at `ids = none`, `symbols = some ""`. -/
theorem getPrice_missing_args_validation_witness :
    get_price stubGateway "usd" none (some "") =
      (ToolResult.errDict "Please provide at least one coin id or symbol", []) :=
  getPrice_missing_args_validation stubGateway "usd" none (some "") (by decide)
    (by decide)

/-- C3: symbol resolution keeps the order of the requested symbols and drops
unmatched ones (it distributes over append of request lists), the
symbol-to-id mapping is last-write-wins on duplicate catalog symbols, and
the two concrete catalog examples resolve as the spec states. -/
theorem resolveSymbols_order_and_lastwins :
    (∀ (cat : List Coin) (c : Coin) (s : String),
        symbolToId (cat ++ [c]) s =
          if c.symbol = s then some c.id else symbolToId cat s)
  ∧ (∀ (cat : List Coin) (xs ys : List String),
        resolveSymbols (xs ++ ys) cat = resolveSymbols xs cat ++ resolveSymbols ys cat)
  ∧ resolveSymbols ["btc", "eth"] demoCatalog = ["bitcoin", "ethereum"]
  ∧ resolveSymbols ["btc", "doge"] demoCatalog = ["bitcoin"] := by
  refine ⟨?_, ?_, by decide, by decide⟩
  · intro cat c s
    unfold symbolToId
    by_cases h : c.symbol = s
    · simp [h, List.find?_cons_of_pos]
    · simp [h, List.find?_cons_of_neg]
  · intro cat xs ys
    unfold resolveSymbols
    exact List.filterMap_append ..

/-- C2: with only symbols supplied and a catalog that fetched fine, the
resolved id set is exactly the matched symbols in order (unmatched ones
silently dropped); when it is empty the call answers the no-valid-symbols
payload right after the catalog fetch, never touching the price endpoint,
and when it is nonempty the price endpoint receives the comma-joined
resolved ids. -/
theorem getPrice_unresolvable_symbols (gw : Gateway) (coins : List Coin)
    (vs symStr : String) (hs : symStr ≠ "") :
    (resolveSymbols (splitComma symStr) coins = [] →
      get_price { gw with coinListResp := .ok coins } vs none (some symStr) =
        (ToolResult.errDict "No valid symbols provided", [GatewayCall.coinList]))
  ∧ (resolveSymbols (splitComma symStr) coins ≠ [] →
      (get_price { gw with coinListResp := .ok coins } vs none (some symStr)).2 =
        [GatewayCall.coinList,
         GatewayCall.simplePrice
           [("vs_currencies", QueryValue.str vs),
            ("ids", QueryValue.str
              (String.intercalate "," (resolveSymbols (splitComma symStr) coins)))]]) := by
  have hie : symStr.isEmpty = false := by
    rw [Bool.eq_false_iff]
    intro h
    exact hs ((String.isEmpty_iff symStr).mp h)
  constructor
  · intro hres
    unfold get_price coin_price_request
    simp [pyTruthy, hie, get_coin_list, hres]
  · intro hres
    unfold get_price coin_price_request simplePriceFetch
    cases h : gw.simplePriceResp <;>
      simp [pyTruthy, hie, get_coin_list, hres, h]

/-- Witness for C2 at the unresolvable symbol `xyzunknown` against the
two-coin stub catalog. -/
theorem getPrice_unresolvable_symbols_witness :
    get_price { stubGateway with coinListResp := .ok demoCatalog } "usd" none
        (some "xyzunknown") =
      (ToolResult.errDict "No valid symbols provided", [GatewayCall.coinList]) :=
  (getPrice_unresolvable_symbols stubGateway demoCatalog "usd" "xyzunknown"
    (by decide)).1 (by decide)

/-- C4: with every optional parameter left unsupplied, `get_market_data`
sends exactly the default query (order `market_cap_desc`, `per_page` 100,
`page` 1, sparkline `false`), and for every choice of arguments the
sparkline query value is the lowercase text `true`/`false`, never a native
boolean. -/
theorem getMarketData_defaults_and_sparkline (gw : Gateway) :
    (get_market_data gw).2 =
      [GatewayCall.markets
        [("vs_currency", QueryValue.str "usd"),
         ("order", QueryValue.str "market_cap_desc"),
         ("per_page", QueryValue.int 100), ("page", QueryValue.int 1),
         ("sparkline", QueryValue.str "false")]]
  ∧ (∀ (vs : String) (ids category : Option String) (order : String)
        (per_page page : Int) (sparkline : Bool),
        (market_params vs ids category order per_page page sparkline).lookup
            "sparkline" =
          some (QueryValue.str (if sparkline then "true" else "false"))) := by
  constructor
  · have hp : market_params "usd" none none "market_cap_desc" 100 1 false =
        [("vs_currency", QueryValue.str "usd"),
         ("order", QueryValue.str "market_cap_desc"),
         ("per_page", QueryValue.int 100), ("page", QueryValue.int 1),
         ("sparkline", QueryValue.str "false")] := by decide
    unfold get_market_data
    cases h : gw.marketsResp with
    | ok b => simp [h, hp]
    | error e => cases e <;> simp [h, hp]
  · intro vs ids category order per_page page sparkline
    have h1 : strLower "True" = "true" := by decide
    have h2 : strLower "False" = "false" := by decide
    unfold market_params
    cases sparkline <;>
      by_cases hi : pyTruthy ids = true <;>
      by_cases hc : pyTruthy category = true <;>
      simp [hi, hc, h1, h2, List.lookup]

/-- C5 counterexample: a transport-level error and an HTTP-status error of
the price endpoint produce the very same `get_price` response, so its
message does not distinguish the two failure kinds. -/
theorem getPrice_error_kinds_collapse_cex :
    get_price gwPriceReqErr "usd" (some "bitcoin") none =
      get_price gwPriceStatErr "usd" (some "bitcoin") none
  ∧ (get_price gwPriceReqErr "usd" (some "bitcoin") none).1 =
      ToolResult.errDict "Failed to fetch price data" := by
  constructor <;> decide

/-- C5 (amended): every upstream failure, of either kind, surfaces as a
structured error payload rather than a fault.  For `get_coin_list`,
`get_market_data` and `get_trending` the payload message distinguishes the
two kinds (prefix `Request error:` versus `HTTP error:`), while `get_price`
returns the one fixed payload `Failed to fetch price data` for both kinds
of price-endpoint failure. -/
theorem upstream_errors_structured (gw : Gateway) (e vs : String)
    (i : Option String) (hi : pyTruthy i = true) (ids category : Option String)
    (order : String) (per_page page : Int) (sparkline : Bool) :
    (get_coin_list { gw with coinListResp := .error (.requestError e) }).1 =
      CoinListResult.errDict ("Request error: " ++ e)
  ∧ (get_coin_list { gw with coinListResp := .error (.httpStatusError e) }).1 =
      CoinListResult.errDict ("HTTP error: " ++ e)
  ∧ (get_market_data { gw with marketsResp := .error (.requestError e) }
        vs ids category order per_page page sparkline).1 =
      ToolResult.errDict ("Request error: " ++ e)
  ∧ (get_market_data { gw with marketsResp := .error (.httpStatusError e) }
        vs ids category order per_page page sparkline).1 =
      ToolResult.errDict ("HTTP error: " ++ e)
  ∧ (get_trending { gw with trendingResp := .error (.requestError e) }).1 =
      ToolResult.errDict ("Request error: " ++ e)
  ∧ (get_trending { gw with trendingResp := .error (.httpStatusError e) }).1 =
      ToolResult.errDict ("HTTP error: " ++ e)
  ∧ (get_price { gw with simplePriceResp := .error (.requestError e) }
        vs i none).1 =
      ToolResult.errDict "Failed to fetch price data"
  ∧ (get_price { gw with simplePriceResp := .error (.httpStatusError e) }
        vs i none).1 =
      ToolResult.errDict "Failed to fetch price data" := by
  refine ⟨rfl, rfl, ?_, ?_, rfl, rfl, ?_, ?_⟩
  · unfold get_market_data
    simp
  · unfold get_market_data
    simp
  · unfold get_price coin_price_request simplePriceFetch
    simp [hi]
  · unfold get_price coin_price_request simplePriceFetch
    simp [hi]

/-- Witness for C5 (amended) at concrete error messages and arguments. -/
theorem upstream_errors_structured_witness :
    (get_trending { stubGateway with trendingResp := .error (.requestError "boom") }).1 =
      ToolResult.errDict ("Request error: " ++ "boom") :=
  (upstream_errors_structured stubGateway "boom" "usd" (some "bitcoin")
    (by decide) none none "market_cap_desc" 100 1 false).2.2.2.2.1

/-- C6 counterexample: rendering the `get_market_data` prompt with an empty
argument mapping (nothing supplied) yields a sentence that mentions
`per_page`, although `per_page` was not supplied and the only required
argument of that prompt is `vs_currency`. -/
theorem getPrompt_mentions_unsupplied_cex :
    get_prompt "get_market_data" (some []) =
      .ok ⟨[⟨"user", "Get cryptocurrency market data. vs_currency: usd, order: market_cap_desc, per_page: 100, page: 1"⟩]⟩
  ∧ textMentions
      "Get cryptocurrency market data. vs_currency: usd, order: market_cap_desc, per_page: 100, page: 1"
      "per_page" = true
  ∧ ((PROMPTS.find? (fun kv => kv.1 == "get_market_data")).map
        (fun kv => promptRequiredArgs kv.2)) = some ["vs_currency"] := by
  refine ⟨by decide, by decide, by decide⟩

/-- A string-defaulted prompt variable is the supplied value when truthy,
else the default. -/
theorem promptVal_str_eq (args : List (String × String)) (k d : String) :
    promptVal args k (.str d) = .str (pyGetOr args k d) := by
  unfold promptVal pyGetOr
  cases dictGet args k with
  | none => rfl
  | some s => by_cases h : s.isEmpty <;> simp [h]

/-- The sparkline prompt variable: the supplied string when truthy, else the
falsy default `False`. -/
theorem promptVal_bool_false_eq (args : List (String × String)) (k : String) :
    promptVal args k (.bool false) =
      if (pyGetOr args k "").isEmpty then .bool false
      else .str (pyGetOr args k "") := by
  unfold promptVal pyGetOr
  cases dictGet args k with
  | none => rfl
  | some s =>
    by_cases h : s.isEmpty <;> simp [h] <;> rfl

/-- Truthiness and rendering of the `PromptVal` constructors. -/
theorem PromptVal.truthy_str (s : String) : (PromptVal.str s).truthy = !s.isEmpty :=
  rfl

theorem PromptVal.truthy_bool (b : Bool) : (PromptVal.bool b).truthy = b :=
  rfl

theorem PromptVal.toText_str (s : String) : (PromptVal.str s).toText = s :=
  rfl

/-- An int-defaulted prompt variable with nonzero default is always truthy
and prints as the supplied value or the printed default. -/
theorem promptVal_int_truthy_toText (args : List (String × String)) (k : String)
    (n : Int) (hn : (n != 0) = true) :
    (promptVal args k (.int n)).truthy = true
  ∧ (promptVal args k (.int n)).toText = pyGetOr args k (toString n) := by
  unfold promptVal pyGetOr
  cases dictGet args k with
  | none => exact ⟨by simp [PromptVal.truthy, hn], rfl⟩
  | some s =>
    by_cases h : s.isEmpty
    · exact ⟨by simp [h, PromptVal.truthy, hn], by simp [h, PromptVal.toText]⟩
    · exact ⟨by simp [h, PromptVal.truthy], by simp [h, PromptVal.toText]⟩

/-- A defaulted string parameter with nonempty default never renders
empty. -/
theorem pyGetOr_ne_empty (args : List (String × String)) (k d : String)
    (hd : d ≠ "") : (pyGetOr args k d).isEmpty = false := by
  have hde : d.isEmpty = false := by
    rw [Bool.eq_false_iff]
    intro h
    exact hd ((String.isEmpty_iff d).mp h)
  unfold pyGetOr
  cases dictGet args k with
  | none => exact hde
  | some s => by_cases h : s.isEmpty <;> simp [h, hde]

/-- C6 (amended): the parameterless prompts render their fixed sentence for
any argument mapping; `get_price` renders exactly the required
`vs_currencies` (defaulted to `usd` like the operation) plus the supplied
truthy optional parameters; but `get_market_data` renders, besides the
required `vs_currency` and the supplied truthy `ids`/`category`/`sparkline`,
also `order`, `per_page` and `page` unconditionally — their defaults are
truthy — even when they were neither supplied nor required. -/
theorem getPrompt_rendering (args : List (String × String)) :
    (∀ a, get_prompt "get_coin_list" a =
        .ok ⟨[⟨"user", "Get a list of all coins available on CoinGecko"⟩]⟩)
  ∧ (∀ a, get_prompt "get_trending" a =
        .ok ⟨[⟨"user", "Get trending coins in the last 24 hours"⟩]⟩)
  ∧ get_prompt "get_price" (some args) =
      .ok ⟨[⟨"user",
        "Get the price of selected coins. vs_currencies: "
          ++ pyGetOr args "vs_currencies" "usd"
          ++ (if (pyGetOr args "ids" "").isEmpty then ""
              else ", ids: " ++ pyGetOr args "ids" "")
          ++ (if (pyGetOr args "symbols" "").isEmpty then ""
              else ", symbols: " ++ pyGetOr args "symbols" "")⟩]⟩
  ∧ get_prompt "get_market_data" (some args) =
      .ok ⟨[⟨"user",
        "Get cryptocurrency market data. vs_currency: "
          ++ pyGetOr args "vs_currency" "usd"
          ++ (if (pyGetOr args "ids" "").isEmpty then ""
              else ", ids: " ++ pyGetOr args "ids" "")
          ++ (if (pyGetOr args "category" "").isEmpty then ""
              else ", category: " ++ pyGetOr args "category" "")
          ++ (", order: " ++ pyGetOr args "order" "market_cap_desc")
          ++ (", per_page: " ++ pyGetOr args "per_page" "100")
          ++ (", page: " ++ pyGetOr args "page" "1")
          ++ (if (pyGetOr args "sparkline" "").isEmpty then ""
              else ", sparkline: " ++ pyGetOr args "sparkline" "")⟩]⟩ := by
  refine ⟨fun a => rfl, fun a => rfl, ?_, ?_⟩
  · have hvs : (pyGetOr args "vs_currencies" "usd").isEmpty = false :=
      pyGetOr_ne_empty args "vs_currencies" "usd" (by decide)
    unfold get_prompt
    rw [if_neg (by decide), if_neg (by decide), if_pos (by decide)]
    simp only [promptVal_str_eq]
    by_cases hids : (pyGetOr args "ids" "").isEmpty <;>
      by_cases hsym : (pyGetOr args "symbols" "").isEmpty <;>
      simp [hids, hsym, hvs, PromptVal.truthy_str, PromptVal.toText_str,
        String.append_assoc]
  · have hord : (pyGetOr args "order" "market_cap_desc").isEmpty = false :=
      pyGetOr_ne_empty args "order" "market_cap_desc" (by decide)
    have hpp := promptVal_int_truthy_toText args "per_page" 100 (by decide)
    have hpg := promptVal_int_truthy_toText args "page" 1 (by decide)
    have h100 : toString (100 : Int) = "100" := rfl
    have h1 : toString (1 : Int) = "1" := rfl
    unfold get_prompt
    rw [if_neg (by decide), if_neg (by decide), if_neg (by decide),
      if_pos (by decide)]
    simp only [promptVal_str_eq, promptVal_bool_false_eq]
    by_cases hids : (pyGetOr args "ids" "").isEmpty <;>
      by_cases hcat : (pyGetOr args "category" "").isEmpty <;>
      by_cases hsp : (pyGetOr args "sparkline" "").isEmpty <;>
      simp [hids, hcat, hsp, hord, hpp.1, hpp.2, hpg.1, hpg.2, h100, h1,
        PromptVal.truthy_str, PromptVal.truthy_bool, PromptVal.toText_str,
        String.append_assoc]

/-- C7 counterexample: a single `get_price` invocation that resolves a
symbol issues two upstream requests, the coin-catalog fetch and then the
price fetch. -/
theorem getPrice_two_upstream_requests_cex :
    (get_price stubGateway "usd" none (some "btc")).2 =
      [GatewayCall.coinList,
       GatewayCall.simplePrice
         [("vs_currencies", .str "usd"), ("ids", .str "bitcoin")]]
  ∧ (get_price stubGateway "usd" none (some "btc")).2.length = 2 := by
  constructor <;> decide

/-- All traces the price helper can produce: one price fetch alone, one
catalog fetch alone, or a catalog fetch followed by one price fetch. -/
theorem coin_price_request_trace_cases (gw : Gateway) (vs : String)
    (ids symbols : Option String) :
    (∃ p, (coin_price_request gw vs ids symbols).2 = [GatewayCall.simplePrice p])
  ∨ (coin_price_request gw vs ids symbols).2 = [GatewayCall.coinList]
  ∨ (∃ p, (coin_price_request gw vs ids symbols).2 =
        [GatewayCall.coinList, GatewayCall.simplePrice p]) := by
  unfold coin_price_request simplePriceFetch
  by_cases hi : pyTruthy ids = true
  · rw [if_pos hi]
    cases hsp : gw.simplePriceResp <;> simp [hsp]
  · rw [if_neg hi]
    by_cases hsym : pyTruthy symbols = true
    · rw [if_pos hsym]
      cases hcl : gw.coinListResp with
      | error e => cases e <;> simp [get_coin_list, hcl]
      | ok cs =>
        simp only [get_coin_list, hcl]
        by_cases hres :
            (resolveSymbols (splitComma (symbols.getD "")) cs).isEmpty = true
        · simp [hres]
        · simp only [hres, if_false, Bool.false_eq_true]
          cases hsp : gw.simplePriceResp <;> simp [hsp]
    · rw [if_neg hsym]
      cases hsp : gw.simplePriceResp <;> simp [hsp]

/-- All traces `get_price` can produce: nothing, one price fetch alone, one
catalog fetch alone, or a catalog fetch followed by one price fetch. -/
theorem get_price_trace_cases (gw : Gateway) (vs : String)
    (ids symbols : Option String) :
    (get_price gw vs ids symbols).2 = []
  ∨ (∃ p, (get_price gw vs ids symbols).2 = [GatewayCall.simplePrice p])
  ∨ (get_price gw vs ids symbols).2 = [GatewayCall.coinList]
  ∨ (∃ p, (get_price gw vs ids symbols).2 =
        [GatewayCall.coinList, GatewayCall.simplePrice p]) := by
  unfold get_price
  by_cases hg : (!pyTruthy ids && !pyTruthy symbols) = true
  · rw [if_pos hg]
    exact Or.inl rfl
  · rw [if_neg hg]
    have htr := coin_price_request_trace_cases gw vs ids symbols
    rcases hc : coin_price_request gw vs ids symbols with ⟨d, calls⟩
    rw [hc] at htr
    cases d <;> exact Or.inr htr

/-- C7 (amended): every invocation attempts each upstream endpoint at most
once — no retries — and every operation except `get_price` issues exactly one
upstream request, while `get_price` issues at most two (the catalog fetch
followed by the price fetch when symbols are being resolved). -/
theorem one_upstream_attempt_each (gw : Gateway) (vs : String)
    (ids symbols category : Option String) (order : String)
    (per_page page : Int) (sparkline : Bool) :
    (get_coin_list gw).2.length = 1
  ∧ (get_market_data gw vs ids category order per_page page sparkline).2.length = 1
  ∧ (get_trending gw).2.length = 1
  ∧ (get_price gw vs ids symbols).2.length ≤ 2
  ∧ ((get_price gw vs ids symbols).2.map endpointOf).Nodup := by
  refine ⟨?_, ?_, ?_, ?_, ?_⟩
  · unfold get_coin_list
    repeat' split
    all_goals simp
  · unfold get_market_data
    repeat' split
    all_goals simp
  · unfold get_trending
    repeat' split
    all_goals simp
  · rcases get_price_trace_cases gw vs ids symbols with h | ⟨p, h⟩ | h | ⟨p, h⟩ <;>
      simp [h]
  · rcases get_price_trace_cases gw vs ids symbols with h | ⟨p, h⟩ | h | ⟨p, h⟩ <;>
      simp [h, endpointOf]

/-- C8: when both `ids` and `symbols` are supplied nonempty, `get_price`
behaves exactly as if `symbols` had not been given: the ids go into the
price query verbatim and the catalog is never fetched, so no symbol
resolution happens. -/
theorem getPrice_ids_override_symbols (gw : Gateway) (vs i s : String)
    (hi : i ≠ "") (hs : s ≠ "") :
    get_price gw vs (some i) (some s) = get_price gw vs (some i) none
  ∧ (get_price gw vs (some i) (some s)).2 =
      [GatewayCall.simplePrice
        [("vs_currencies", QueryValue.str vs), ("ids", QueryValue.str i)]] := by
  have hie : i.isEmpty = false := by
    rw [Bool.eq_false_iff]
    intro h
    exact hi ((String.isEmpty_iff i).mp h)
  have hti : pyTruthy (some i) = true := by simp [pyTruthy, hie]
  constructor
  · unfold get_price coin_price_request
    simp [hti]
  · unfold get_price coin_price_request simplePriceFetch
    simp only [hti]
    cases h : gw.simplePriceResp <;> simp [h]

/-- Witness for C8 at ids `bitcoin` and (ignored) symbols `xyzunknown`. -/
theorem getPrice_ids_override_symbols_witness :
    get_price stubGateway "usd" (some "bitcoin") (some "xyzunknown") =
      get_price stubGateway "usd" (some "bitcoin") none :=
  (getPrice_ids_override_symbols stubGateway "usd" "bitcoin" "xyzunknown"
    (by decide) (by decide)).1

/-- C9: `get_prompt` with `name = get_price` and `arguments = None` raises
an uncaught `AttributeError` (calling `.get` on `None`), while the
`get_market_data` branch guards `None` with an explicit required-arguments
`ValueError`. -/
theorem getPrompt_none_arguments_asymmetry :
    get_prompt "get_price" none = .error (.attributeError "get")
  ∧ get_prompt "get_market_data" none =
      .error (.valueError "Arguments are required for this prompt.") := by
  constructor <;> decide

/-- C10: symbol resolution matches by exact string equality (a symbol
resolves exactly when some catalog entry carries it verbatim), so a
case-different symbol or one kept surrounding spaces after comma-splitting
is dropped. -/
theorem symbol_matching_exact :
    (∀ (cat : List Coin) (s : String),
        (symbolToId cat s).isSome = cat.any (fun c => c.symbol == s))
  ∧ splitComma "btc, eth" = ["btc", " eth"]
  ∧ resolveSymbols (splitComma "btc, eth") demoCatalog = ["bitcoin"]
  ∧ resolveSymbols ["BTC"] demoCatalog = [] := by
  refine ⟨?_, by decide, by decide, by decide⟩
  intro cat s
  unfold symbolToId
  rw [Option.isSome_map']
  rw [Bool.eq_iff_iff]
  rw [List.find?_isSome, List.any_eq_true]
  simp [List.mem_reverse]

end CryptoServer
